import Mathlib

/-!
Verification of the adaptive freshness-aware caching layer of the
espn-mcp-server repository.

The JavaScript modules `src/espn-api.js`, `src/cfbd-api.js` and the NCAA
integration module are shallowly embedded below.  Time is modelled as a
natural-number millisecond count (the value of `Date.now()` at the moment an
operation runs).  Each in-memory `Map` used as a cache becomes an association
list from string keys to `{ data, timestamp }` entries, and each asynchronous
network fetch becomes an explicit `Except String v` argument describing the
outcome the upstream HTTP call would have at that moment (`.error msg` covers
both transport errors and the non-2xx branch that throws).  Every operation
returns, besides its result, the cache state after the call and the number of
upstream fetch invocations it performed, so that the freshness and expiry
claims can be stated exactly.
-/

/-- One cache entry, `{ data, timestamp }`, exactly as stored by
`cache.set(cacheKey, { data, timestamp: Date.now() })` in the source.  The
entry carries no TTL: every module stores only the value and the write time. -/
structure CacheEntry (α : Type) where
  data : α
  timestamp : Nat
deriving DecidableEq, Repr

/-- A provider-local in-memory cache (`const cache = new Map()` in each
module), modelled as an association list keyed by string. -/
abbrev Cache (α : Type) : Type := List (String × CacheEntry α)

/-- `cache.get(key)`: the first binding of `key`, if any. -/
def Cache.get {α : Type} (c : Cache α) (k : String) : Option (CacheEntry α) :=
  (c.find? (fun p => p.1 == k)).map (fun p => p.2)

/-- `cache.delete(key)`: drop every binding of `key`. -/
def Cache.del {α : Type} (c : Cache α) (k : String) : Cache α :=
  c.filter (fun p => p.1 != k)

/-- `cache.set(key, entry)`: overwrite the binding of `key`. -/
def Cache.set {α : Type} (c : Cache α) (k : String) (e : CacheEntry α) : Cache α :=
  (k, e) :: Cache.del c k

/-- A raw upstream ESPN event as the code reads it.  The fields the cache
layer inspects are modelled: `id`, the event date (as a numeric timestamp, so
that recency of events can be compared), the flat `status.state` path read by
`getScoreboard` on cached payloads (`statusState`), and the nested
`status.type.state` path read by `parseGameData` and the schedule selection
(`statusTypeState`).  `none` models an absent field anywhere on the optional
chain. -/
structure RawEvent where
  id : String
  date : Nat
  statusState : Option String
  statusTypeState : Option String
deriving DecidableEq, Repr

/-- The output of `parseGameData`: a normalized game whose `status.state`
(`statusState` here) is copied from the raw event's nested
`status.type.state`.  Team, venue, broadcast and odds fields are carried
along by the source but never inspected by the caching layer, so they are not
modelled. -/
structure ParsedGame where
  id : String
  date : Nat
  statusState : Option String
deriving DecidableEq, Repr

/-- The JavaScript values that flow through the caches of the ESPN module:
raw upstream payloads (`{ events: [...] }` as returned by the ESPN API and
stored verbatim by `fetchWithCache`), single parsed games (stored by
`getCurrentGame`), and normalized scoreboard objects
(`{ events: parsed, sport }`, returned by `getScoreboard` on a cache miss but
never stored). -/
inductive JSValue where
  | raw (events : List RawEvent)
  | game (g : ParsedGame)
  | scoreboard (events : List ParsedGame) (sport : String)
deriving DecidableEq, Repr

/-- The access `value.status?.state` performed by `getCurrentGame` on a cached
value: defined on a parsed game, `undefined` (`none`) on any other shape. -/
def statusStateOf : JSValue → Option String
  | .game g => g.statusState
  | _ => none

/-- The access `value.events?.some(event => event.status?.state === 'in')`
performed by `getScoreboard` on a cached value.  Note it reads the FLAT
`status.state` path on whatever events the value holds; on a raw payload the
events only carry the nested `status.type.state`, so this is `false` there
unless the upstream itself supplied a flat field. -/
def eventsSomeLiveFlat : JSValue → Bool
  | .raw evs => evs.any (fun e => e.statusState == some "in")
  | .scoreboard evs _ => evs.any (fun g => g.statusState == some "in")
  | .game _ => false

/-- The access `payload.events || []` on a fetched or cached schedule
payload.  Only raw payloads are ever stored under schedule and scoreboard
keys, so the other shapes yield the `|| []` default. -/
def payloadEvents : JSValue → List RawEvent
  | .raw evs => evs
  | _ => []

namespace EspnApi

-- The `CACHE_DURATIONS` table of `src/espn-api.js` (milliseconds).
namespace CACHE_DURATIONS

def LIVE_GAME : Nat := 1 * 60 * 1000

def COMPLETED_GAME : Nat := 24 * 60 * 60 * 1000

def UPCOMING_GAME : Nat := 6 * 60 * 60 * 1000

def SCHEDULE : Nat := 24 * 60 * 60 * 1000

def SCOREBOARD : Nat := 1 * 60 * 1000

def SCOREBOARD_NO_LIVE : Nat := 15 * 60 * 1000

def RANKINGS : Nat := 24 * 60 * 60 * 1000

end CACHE_DURATIONS

/-- Result of an ESPN-module operation returning a value (or propagating a
thrown error), together with the cache state after the call and the number of
upstream HTTP fetches performed during it. -/
structure FetchResult where
  result : Except String JSValue
  cache : Cache JSValue
  fetchCount : Nat

/-- The miss path of `fetchWithCache` (src/espn-api.js lines 36-52): perform
the upstream fetch; on failure throw without touching the cache, on success
store the raw response under the key with the current time and return it. -/
def fetchFresh (c : Cache JSValue) (now : Nat) (cacheKey : String)
    (upstream : Except String JSValue) : FetchResult :=
  match upstream with
  | .error e => ⟨.error e, c, 1⟩
  | .ok data => ⟨.ok data, Cache.set c cacheKey ⟨data, now⟩, 1⟩

/-- `fetchWithCache(url, cacheKey, cacheDuration)` (src/espn-api.js lines
28-53).  The `url` argument only feeds the network call, which is modelled by
the `upstream` outcome, so it is not a separate parameter here.  If an entry
exists and `now - entry.timestamp < cacheDuration`, the stored data is
returned with no fetch; otherwise the upstream call runs. -/
def fetchWithCache (c : Cache JSValue) (now : Nat) (cacheKey : String)
    (cacheDuration : Nat) (upstream : Except String JSValue) : FetchResult :=
  match Cache.get c cacheKey with
  | some cached =>
    if now - cached.timestamp < cacheDuration then
      ⟨.ok cached.data, c, 0⟩
    else
      fetchFresh c now cacheKey upstream
  | none => fetchFresh c now cacheKey upstream

/-- `parseGameData(event)` (src/espn-api.js lines 275-329), restricted to the
fields the caching layer inspects: the normalized `status.state` is the raw
event's `status?.type?.state`. -/
def parseGameData (event : RawEvent) : ParsedGame :=
  ⟨event.id, event.date, event.statusTypeState⟩

/-- The cache-duration computation of `getCurrentGame` (src/espn-api.js lines
98-114): a stored game in state `'in'` is measured against the live TTL, in
state `'post'` against the completed TTL, and any other state falls to the
`else` branch, the upcoming TTL. -/
def adaptiveCacheDuration (gameState : Option String) : Nat :=
  if gameState == some "in" then CACHE_DURATIONS.LIVE_GAME
  else if gameState == some "post" then CACHE_DURATIONS.COMPLETED_GAME
  else CACHE_DURATIONS.UPCOMING_GAME

/-- The current-game selection of `getCurrentGame` (src/espn-api.js lines
132-181): the first event whose `status?.type?.state` is `'in'`; failing
that the first element of the events filtered to state `'post'`; failing that
the first element filtered to `'pre'`; otherwise nothing.  The selected event
is parsed with `parseGameData`. -/
def selectCurrentGame (events : List RawEvent) : Option ParsedGame :=
  match events.find? (fun e => e.statusTypeState == some "in") with
  | some liveGame => some (parseGameData liveGame)
  | none =>
    match events.filter (fun e => e.statusTypeState == some "post") with
    | completedGame :: _ => some (parseGameData completedGame)
    | [] =>
      match events.filter (fun e => e.statusTypeState == some "pre") with
      | upcomingGame :: _ => some (parseGameData upcomingGame)
      | [] => none

/-- The cache key `current-game-${teamId}-${sport}`. -/
def currentGameKey (teamId sport : String) : String :=
  "current-game-" ++ teamId ++ "-" ++ sport

/-- The cache key `schedule-${teamId}-${sport}`. -/
def scheduleKey (teamId sport : String) : String :=
  "schedule-" ++ teamId ++ "-" ++ sport

/-- Result of `getCurrentGame`: the returned game (or `null`, or a thrown
error), the cache afterwards, and the upstream fetch count. -/
structure CurrentGameResult where
  result : Except String (Option JSValue)
  cache : Cache JSValue
  fetchCount : Nat

/-- The refetch path of `getCurrentGame` (src/espn-api.js lines 123-181),
taken when the current-game entry is absent or expired: the schedule is
obtained through `fetchWithCache` under the SCHEDULE key and TTL (so a fresh
schedule entry satisfies it without any network call), the current game is
selected from its events, and a selected game is stored under the
current-game key with the present time. -/
def currentGameRefetch (teamId sport : String) (c : Cache JSValue) (now : Nat)
    (upstream : Except String JSValue) : CurrentGameResult :=
  let fr := fetchWithCache c now (scheduleKey teamId sport)
    CACHE_DURATIONS.SCHEDULE upstream
  match fr.result with
  | .error e => ⟨.error e, fr.cache, fr.fetchCount⟩
  | .ok scheduleData =>
    match selectCurrentGame (payloadEvents scheduleData) with
    | none => ⟨.ok none, fr.cache, fr.fetchCount⟩
    | some parsedGame =>
      ⟨.ok (some (.game parsedGame)),
        Cache.set fr.cache (currentGameKey teamId sport) ⟨.game parsedGame, now⟩,
        fr.fetchCount⟩

/-- `getCurrentGame(teamName, sport)` (src/espn-api.js lines 84-182).  The
`teamId` argument is the value of `getTeamId(teamName)`; the lookup itself
lives in `team-mapping.js`, outside the embedded modules, and per the spec an
unknown team name yields no id, modelled as `none`.  With no id the function
throws `Team not found`.  Otherwise, if a cached entry exists, its freshness
window is recomputed from the classification of its stored value and a fresh
entry is returned as-is; a stale or absent entry triggers the refetch path. -/
def getCurrentGame (teamName sport : String) (teamId : Option String)
    (c : Cache JSValue) (now : Nat) (upstream : Except String JSValue) :
    CurrentGameResult :=
  match teamId with
  | none => ⟨.error ("Team not found: " ++ teamName), c, 0⟩
  | some tid =>
    match Cache.get c (currentGameKey tid sport) with
    | some cached =>
      if now - cached.timestamp < adaptiveCacheDuration (statusStateOf cached.data) then
        ⟨.ok (some cached.data), c, 0⟩
      else
        currentGameRefetch tid sport c now upstream
    | none => currentGameRefetch tid sport c now upstream

/-- The cache key `scoreboard-${sport}-${date || 'today'}`. -/
def scoreboardCacheKey (sport : String) (date : Option String) : String :=
  "scoreboard-" ++ sport ++ "-" ++ (date.getD "today")

/-- The fetch path of `getScoreboard` (src/espn-api.js lines 222-240): the
raw payload is obtained (and stored) through `fetchWithCache` under the same
scoreboard key with the short SCOREBOARD TTL, then normalized into
`{ events: events.map(parseGameData), sport }` for the caller.  The
normalized shape is returned but never written to the cache. -/
def scoreboardFetch (sportName : String) (c : Cache JSValue) (now : Nat)
    (cacheKey : String) (upstream : Except String JSValue) : FetchResult :=
  let fr := fetchWithCache c now cacheKey CACHE_DURATIONS.SCOREBOARD upstream
  match fr.result with
  | .error e => ⟨.error e, fr.cache, fr.fetchCount⟩
  | .ok data =>
    ⟨.ok (.scoreboard ((payloadEvents data).map parseGameData) sportName),
      fr.cache, fr.fetchCount⟩

/-- `getScoreboard(sport, date)` (src/espn-api.js lines 188-241).
`sportName` is `sportConfig.name` from the external `team-mapping.js`.  If an
entry exists, the code reads `event.status?.state` over the stored value's
events to decide between the SCOREBOARD and SCOREBOARD_NO_LIVE windows; a
fresh entry is returned exactly as stored. -/
def getScoreboard (sport sportName : String) (date : Option String)
    (c : Cache JSValue) (now : Nat) (upstream : Except String JSValue) :
    FetchResult :=
  let cacheKey := scoreboardCacheKey sport date
  match Cache.get c cacheKey with
  | some cached =>
    let cacheDuration :=
      if eventsSomeLiveFlat cached.data then CACHE_DURATIONS.SCOREBOARD
      else CACHE_DURATIONS.SCOREBOARD_NO_LIVE
    if now - cached.timestamp < cacheDuration then
      ⟨.ok cached.data, c, 0⟩
    else
      scoreboardFetch sportName c now cacheKey upstream
  | none => scoreboardFetch sportName c now cacheKey upstream

end EspnApi

namespace CfbdApi

-- The `CACHE_DURATION` table of `src/cfbd-api.js` (milliseconds).
namespace CACHE_DURATION

def RECRUITING : Nat := 24 * 60 * 60 * 1000

def TALENT : Nat := 24 * 60 * 60 * 1000

def STATS : Nat := 6 * 60 * 60 * 1000

def BETTING : Nat := 1 * 60 * 60 * 1000

def RATINGS : Nat := 24 * 60 * 60 * 1000

def RECORDS : Nat := 24 * 60 * 60 * 1000

end CACHE_DURATION

/-- Result of the `getCached` helper: the returned value, if any, and the
cache state after the call (the helper mutates the cache when it finds an
expired entry). -/
structure GetCachedResult (α : Type) where
  result : Option α
  cache : Cache α

/-- `getCached(key, maxAge)` as defined identically in `src/cfbd-api.js`
(lines 71-83) and in the NCAA integration module: a missing entry yields
nothing; an entry older than `maxAge` is DELETED from the cache and nothing
is returned; otherwise the stored data is returned. -/
def getCached {α : Type} (c : Cache α) (now : Nat) (key : String)
    (maxAge : Nat) : GetCachedResult α :=
  match Cache.get c key with
  | none => ⟨none, c⟩
  | some cached =>
    if now - cached.timestamp > maxAge then
      ⟨none, Cache.del c key⟩
    else
      ⟨some cached.data, c⟩

/-- `setCache(key, data)` as defined identically in `src/cfbd-api.js` (lines
85-90) and in the NCAA integration module. -/
def setCache {α : Type} (c : Cache α) (now : Nat) (key : String) (data : α) :
    Cache α :=
  Cache.set c key ⟨data, now⟩

/-- A CFBD endpoint outcome: either a processed record, or the
`{ error: true, message }` object the module returns instead of throwing.
CFBD records are opaque to the cache layer and modelled as strings; the field
projection `getRecruiting` performs on `data[0]` is the identity on this
model. -/
inductive CfbdOutcome where
  | ok (record : String)
  | errorResult (message : String)
deriving DecidableEq, Repr

/-- Result of a CFBD endpoint call: outcome, cache afterwards, and the number
of upstream fetch attempts. -/
structure CfbdOpResult where
  result : CfbdOutcome
  cache : Cache String
  fetchCount : Nat
deriving DecidableEq, Repr

/-- `getRecruiting(teamName, year)` (src/cfbd-api.js lines 140-180).  `team`
is the already-normalized team name (`normalizeTeamName` is a fixed synonym
table that does not affect the cache layer) and `year` the resolved year.
A fresh cached value is returned without fetching; otherwise the upstream
call runs: a failure is caught and returned as an error object, an empty
payload becomes a no-data error object, and a non-empty payload has its first
record processed, cached and returned. -/
def getRecruiting (team year : String) (c : Cache String) (now : Nat)
    (upstream : Except String (List String)) : CfbdOpResult :=
  let cacheKey := "recruiting_" ++ team ++ "_" ++ year
  let gc := getCached c now cacheKey CACHE_DURATION.RECRUITING
  match gc.result with
  | some cachedVal => ⟨.ok cachedVal, gc.cache, 0⟩
  | none =>
    match upstream with
    | .error e =>
      ⟨.errorResult ("Failed to get recruiting data: " ++ e), gc.cache, 1⟩
    | .ok [] =>
      ⟨.errorResult ("No recruiting data found for " ++ team ++ " in " ++ year),
        gc.cache, 1⟩
    | .ok (teamData :: _) =>
      ⟨.ok teamData, setCache gc.cache now cacheKey teamData, 1⟩

end CfbdApi

namespace NcaaApi

-- The `CACHE_DURATION` table of the NCAA integration module (milliseconds).
namespace CACHE_DURATION

def SCOREBOARD : Nat := 5 * 60 * 1000

def RANKINGS : Nat := 24 * 60 * 60 * 1000

end CACHE_DURATION

end NcaaApi

/-- On any cache, `Cache.set` makes the written entry the one subsequently
read under its key. -/
theorem Cache.get_set {α : Type} (c : Cache α) (k : String) (e : CacheEntry α) :
    Cache.get (Cache.set c k e) k = some e := by
  simp [Cache.get, Cache.set, Cache.del, List.find?]

/-- C8: in the providers' TTL tables, the live TTL is strictly below the
upcoming TTL, which is strictly below the completed TTL, and the live TTL is
strictly below every static-domain TTL: ESPN schedules and rankings, CFBD
recruiting, talent, stats, betting, ratings and records, and NCAA rankings. -/
theorem c8_ttl_volatility_ordering :
    EspnApi.CACHE_DURATIONS.LIVE_GAME < EspnApi.CACHE_DURATIONS.UPCOMING_GAME ∧
    EspnApi.CACHE_DURATIONS.UPCOMING_GAME < EspnApi.CACHE_DURATIONS.COMPLETED_GAME ∧
    EspnApi.CACHE_DURATIONS.LIVE_GAME < EspnApi.CACHE_DURATIONS.SCHEDULE ∧
    EspnApi.CACHE_DURATIONS.LIVE_GAME < EspnApi.CACHE_DURATIONS.RANKINGS ∧
    EspnApi.CACHE_DURATIONS.LIVE_GAME < CfbdApi.CACHE_DURATION.RECRUITING ∧
    EspnApi.CACHE_DURATIONS.LIVE_GAME < CfbdApi.CACHE_DURATION.TALENT ∧
    EspnApi.CACHE_DURATIONS.LIVE_GAME < CfbdApi.CACHE_DURATION.STATS ∧
    EspnApi.CACHE_DURATIONS.LIVE_GAME < CfbdApi.CACHE_DURATION.BETTING ∧
    EspnApi.CACHE_DURATIONS.LIVE_GAME < CfbdApi.CACHE_DURATION.RATINGS ∧
    EspnApi.CACHE_DURATIONS.LIVE_GAME < CfbdApi.CACHE_DURATION.RECORDS ∧
    EspnApi.CACHE_DURATIONS.LIVE_GAME < NcaaApi.CACHE_DURATION.RANKINGS := by
  decide

/-- C1: a read of `fetchWithCache` at time `now` finding an entry with
`now - timestamp` strictly below the supplied TTL returns the stored value,
leaves the cache unchanged and performs no upstream fetch; likewise a read of
the adaptive `getCurrentGame` finding an entry fresh under the TTL recomputed
from its stored value's state returns that value with no upstream fetch. -/
theorem c1_fresh_read_serves_cache :
    (∀ (c : Cache JSValue) (now : Nat) (key : String) (dur : Nat)
        (u : Except String JSValue) (e : CacheEntry JSValue),
        Cache.get c key = some e → now - e.timestamp < dur →
        EspnApi.fetchWithCache c now key dur u = ⟨.ok e.data, c, 0⟩) ∧
    (∀ (teamName sport teamId : String) (c : Cache JSValue) (now : Nat)
        (u : Except String JSValue) (e : CacheEntry JSValue),
        Cache.get c (EspnApi.currentGameKey teamId sport) = some e →
        now - e.timestamp < EspnApi.adaptiveCacheDuration (statusStateOf e.data) →
        EspnApi.getCurrentGame teamName sport (some teamId) c now u =
          ⟨.ok (some e.data), c, 0⟩) := by
  constructor
  · intro c now key dur u e hget hfresh
    simp [EspnApi.fetchWithCache, hget, hfresh]
  · intro teamName sport teamId c now u e hget hfresh
    simp [EspnApi.getCurrentGame, hget, hfresh]

/-- C1 witness: a schedule entry 5 ms old read with a 100 ms TTL, and a live
current-game entry 30 s old, are both served from the cache with zero
upstream fetches even while the upstream is unreachable. -/
theorem c1_fresh_read_serves_cache_witness :
    EspnApi.fetchWithCache [("k", ⟨.raw [], 5⟩)] 10 "k" 100 (.error "down") =
      ⟨.ok (.raw []), [("k", ⟨.raw [], 5⟩)], 0⟩ ∧
    EspnApi.getCurrentGame "sooners" "football" (some "201")
        [(EspnApi.currentGameKey "201" "football", ⟨.game ⟨"g1", 0, some "in"⟩, 100⟩)]
        30100 (.error "down") =
      ⟨.ok (some (.game ⟨"g1", 0, some "in"⟩)),
        [(EspnApi.currentGameKey "201" "football", ⟨.game ⟨"g1", 0, some "in"⟩, 100⟩)], 0⟩ :=
  ⟨c1_fresh_read_serves_cache.1 [("k", ⟨.raw [], 5⟩)] 10 "k" 100 (.error "down")
      ⟨.raw [], 5⟩ rfl (by decide),
    c1_fresh_read_serves_cache.2 "sooners" "football" "201"
      [(EspnApi.currentGameKey "201" "football", ⟨.game ⟨"g1", 0, some "in"⟩, 100⟩)]
      30100 (.error "down") ⟨.game ⟨"g1", 0, some "in"⟩, 100⟩ rfl (by decide)⟩

/-- The adaptive window for a stored live game is the live TTL. -/
theorem adaptiveCacheDuration_in :
    EspnApi.adaptiveCacheDuration (some "in") = EspnApi.CACHE_DURATIONS.LIVE_GAME := by
  decide

/-- The adaptive window for a stored completed game is the completed TTL. -/
theorem adaptiveCacheDuration_post :
    EspnApi.adaptiveCacheDuration (some "post") = EspnApi.CACHE_DURATIONS.COMPLETED_GAME := by
  decide

/-- Any stored state other than `'in'` and `'post'` falls to the upcoming
TTL. -/
theorem adaptiveCacheDuration_other (s : Option String) (h1 : s ≠ some "in")
    (h2 : s ≠ some "post") :
    EspnApi.adaptiveCacheDuration s = EspnApi.CACHE_DURATIONS.UPCOMING_GAME := by
  have b1 : (s == some "in") = false := beq_eq_false_iff_ne.mpr h1
  have b2 : (s == some "post") = false := beq_eq_false_iff_ne.mpr h2
  simp [EspnApi.adaptiveCacheDuration, b1, b2]

/-- C2: in the adaptive current-game lookup the freshness window is
recomputed at read time from the classification of the stored value — state
`'in'` is checked against the live TTL, `'post'` against the completed TTL,
any other state against the upcoming TTL (the entry stores no TTL of its
own); a stale entry hands off to the refetch path; and when a live game's
expired entry is refreshed and the fresh schedule selects the game as
completed, the new entry is stored with state `'post'` and every subsequent
read within the completed TTL is a cache hit. -/
theorem c2_adaptive_ttl_recomputed_at_read :
    (EspnApi.adaptiveCacheDuration (some "in") = EspnApi.CACHE_DURATIONS.LIVE_GAME ∧
      EspnApi.adaptiveCacheDuration (some "post") = EspnApi.CACHE_DURATIONS.COMPLETED_GAME ∧
      ∀ s : Option String, s ≠ some "in" → s ≠ some "post" →
        EspnApi.adaptiveCacheDuration s = EspnApi.CACHE_DURATIONS.UPCOMING_GAME) ∧
    (∀ (teamName sport teamId : String) (c : Cache JSValue) (now : Nat)
        (u : Except String JSValue) (e : CacheEntry JSValue),
        Cache.get c (EspnApi.currentGameKey teamId sport) = some e →
        ¬ now - e.timestamp < EspnApi.adaptiveCacheDuration (statusStateOf e.data) →
        EspnApi.getCurrentGame teamName sport (some teamId) c now u =
          EspnApi.currentGameRefetch teamId sport c now u) ∧
    (∀ (teamName sport teamId : String) (c : Cache JSValue) (now : Nat)
        (u : Except String JSValue) (e : CacheEntry JSValue) (evs : List RawEvent)
        (g : ParsedGame),
        Cache.get c (EspnApi.currentGameKey teamId sport) = some e →
        statusStateOf e.data = some "in" →
        EspnApi.CACHE_DURATIONS.LIVE_GAME ≤ now - e.timestamp →
        (EspnApi.fetchWithCache c now (EspnApi.scheduleKey teamId sport)
            EspnApi.CACHE_DURATIONS.SCHEDULE u).result = .ok (.raw evs) →
        EspnApi.selectCurrentGame evs = some g →
        g.statusState = some "post" →
        Cache.get (EspnApi.getCurrentGame teamName sport (some teamId) c now u).cache
            (EspnApi.currentGameKey teamId sport) = some ⟨.game g, now⟩ ∧
        ∀ (now2 : Nat) (u2 : Except String JSValue),
          now2 - now < EspnApi.CACHE_DURATIONS.COMPLETED_GAME →
          EspnApi.getCurrentGame teamName sport (some teamId)
              (EspnApi.getCurrentGame teamName sport (some teamId) c now u).cache now2 u2 =
            ⟨.ok (some (.game g)),
              (EspnApi.getCurrentGame teamName sport (some teamId) c now u).cache, 0⟩) := by
  refine ⟨⟨adaptiveCacheDuration_in, adaptiveCacheDuration_post, adaptiveCacheDuration_other⟩, ?_, ?_⟩
  · intro teamName sport teamId c now u e hget hstale
    simp [EspnApi.getCurrentGame, hget, hstale]
  · intro teamName sport teamId c now u e evs g hget hin hstale hfr hsel hgpost
    have hlt : ¬ now - e.timestamp <
        EspnApi.adaptiveCacheDuration (statusStateOf e.data) := by
      rw [hin, adaptiveCacheDuration_in]
      exact Nat.not_lt.mpr hstale
    have hmain : EspnApi.getCurrentGame teamName sport (some teamId) c now u =
        EspnApi.currentGameRefetch teamId sport c now u := by
      simp [EspnApi.getCurrentGame, hget, hlt]
    have hrf : EspnApi.currentGameRefetch teamId sport c now u =
        ⟨.ok (some (.game g)),
          Cache.set (EspnApi.fetchWithCache c now (EspnApi.scheduleKey teamId sport)
              EspnApi.CACHE_DURATIONS.SCHEDULE u).cache
            (EspnApi.currentGameKey teamId sport) ⟨.game g, now⟩,
          (EspnApi.fetchWithCache c now (EspnApi.scheduleKey teamId sport)
              EspnApi.CACHE_DURATIONS.SCHEDULE u).fetchCount⟩ := by
      simp [EspnApi.currentGameRefetch, hfr, hsel, payloadEvents]
    rw [hmain, hrf]
    refine ⟨Cache.get_set _ _ _, ?_⟩
    intro now2 u2 hlt2
    have hget2 := Cache.get_set
      (EspnApi.fetchWithCache c now (EspnApi.scheduleKey teamId sport)
        EspnApi.CACHE_DURATIONS.SCHEDULE u).cache
      (EspnApi.currentGameKey teamId sport)
      (⟨.game g, now⟩ : CacheEntry JSValue)
    have hfresh2 : now2 - (⟨JSValue.game g, now⟩ : CacheEntry JSValue).timestamp <
        EspnApi.adaptiveCacheDuration (statusStateOf (⟨JSValue.game g, now⟩ : CacheEntry JSValue).data) := by
      show now2 - now < EspnApi.adaptiveCacheDuration (statusStateOf (.game g))
      rw [show statusStateOf (.game g) = g.statusState from rfl, hgpost,
        adaptiveCacheDuration_post]
      exact hlt2
    simp [EspnApi.getCurrentGame, hget2, hfresh2]

/-- C2 witness: a live game cached at time 0 and read at 90 s is expired,
the refetched schedule selects it as completed, and a later read at 1000 s
is served from the cache (the new entry enjoying the completed TTL). -/
theorem c2_adaptive_ttl_recomputed_at_read_witness :
    EspnApi.getCurrentGame "sooners" "football" (some "201")
        (EspnApi.getCurrentGame "sooners" "football" (some "201")
          [(EspnApi.currentGameKey "201" "football", ⟨.game ⟨"g1", 1000, some "in"⟩, 0⟩)]
          90000 (.ok (.raw [⟨"g1", 1000, none, some "post"⟩]))).cache
        1000000 (.error "down") =
      ⟨.ok (some (.game ⟨"g1", 1000, some "post"⟩)),
        (EspnApi.getCurrentGame "sooners" "football" (some "201")
          [(EspnApi.currentGameKey "201" "football", ⟨.game ⟨"g1", 1000, some "in"⟩, 0⟩)]
          90000 (.ok (.raw [⟨"g1", 1000, none, some "post"⟩]))).cache, 0⟩ :=
  (c2_adaptive_ttl_recomputed_at_read.2.2 "sooners" "football" "201"
    [(EspnApi.currentGameKey "201" "football", ⟨.game ⟨"g1", 1000, some "in"⟩, 0⟩)]
    90000 (.ok (.raw [⟨"g1", 1000, none, some "post"⟩]))
    ⟨.game ⟨"g1", 1000, some "in"⟩, 0⟩ [⟨"g1", 1000, none, some "post"⟩]
    ⟨"g1", 1000, some "post"⟩ rfl rfl (by decide) rfl rfl rfl).2
    1000000 (.error "down") (by decide)

/-- C3 (code bug): a live current-game entry cached at time 0 and read at
90 s is expired under its 60 s window, yet the read performs ZERO upstream
fetches — the refetch is served by the still-fresh 24-hour schedule cache
entry even though the network is unreachable — and the stale game is
re-stored under a fresh timestamp and returned. -/
theorem c3_expired_read_performs_no_fetch :
    EspnApi.getCurrentGame "sooners" "football" (some "201")
        [(EspnApi.currentGameKey "201" "football", ⟨.game ⟨"401", 1000, some "in"⟩, 0⟩),
          (EspnApi.scheduleKey "201" "football", ⟨.raw [⟨"401", 1000, none, some "in"⟩], 0⟩)]
        90000 (.error "network down") =
      ⟨.ok (some (.game ⟨"401", 1000, some "in"⟩)),
        [(EspnApi.currentGameKey "201" "football", ⟨.game ⟨"401", 1000, some "in"⟩, 90000⟩),
          (EspnApi.scheduleKey "201" "football", ⟨.raw [⟨"401", 1000, none, some "in"⟩], 0⟩)],
        0⟩ := by
  rfl

/-- C4 counterexample: a CFBD recruiting entry written at time 0 and read
just past its 24-hour window while the upstream returns HTTP 500: the call
surfaces the failure, but the prior cache entry has been DELETED by the read
path rather than left untouched. -/
theorem c4_counterexample_expired_entry_deleted_on_failed_refresh :
    CfbdApi.getRecruiting "Oklahoma" "2025"
        [("recruiting_Oklahoma_2025", ⟨"old recruiting record", 0⟩)]
        86400001 (.error "CFBD API error: 500 Internal Server Error") =
      ⟨.errorResult "Failed to get recruiting data: CFBD API error: 500 Internal Server Error",
        [], 1⟩ ∧
    Cache.get (CfbdApi.getRecruiting "Oklahoma" "2025"
        [("recruiting_Oklahoma_2025", ⟨"old recruiting record", 0⟩)]
        86400001 (.error "CFBD API error: 500 Internal Server Error")).cache
      "recruiting_Oklahoma_2025" = none :=
  ⟨rfl, rfl⟩

/-- C4 as amended: an upstream failure is surfaced by every provider without
serving expired data — ESPN's `fetchWithCache` throws and leaves the whole
cache untouched, and CFBD returns an error object — but the CFBD/NCAA shared
read helper deletes an expired prior entry before the fetch is even
attempted, so a failed refresh leaves the key empty rather than holding the
old entry. -/
theorem c4_amended_upstream_failure_handling :
    (∀ (c : Cache JSValue) (now : Nat) (key : String) (dur : Nat) (msg : String),
        (EspnApi.fetchWithCache c now key dur (.error msg)).cache = c ∧
        (∀ e : CacheEntry JSValue, Cache.get c key = some e →
          ¬ now - e.timestamp < dur →
          (EspnApi.fetchWithCache c now key dur (.error msg)).result = .error msg) ∧
        (Cache.get c key = none →
          (EspnApi.fetchWithCache c now key dur (.error msg)).result = .error msg)) ∧
    (∀ (α : Type) (c : Cache α) (now : Nat) (key : String) (maxAge : Nat)
        (e : CacheEntry α),
        Cache.get c key = some e → now - e.timestamp > maxAge →
        CfbdApi.getCached c now key maxAge = ⟨none, Cache.del c key⟩) ∧
    (∀ (team year : String) (c : Cache String) (now : Nat) (msg : String),
        (CfbdApi.getCached c now ("recruiting_" ++ team ++ "_" ++ year)
            CfbdApi.CACHE_DURATION.RECRUITING).result = none →
        CfbdApi.getRecruiting team year c now (.error msg) =
          ⟨.errorResult ("Failed to get recruiting data: " ++ msg),
            (CfbdApi.getCached c now ("recruiting_" ++ team ++ "_" ++ year)
              CfbdApi.CACHE_DURATION.RECRUITING).cache, 1⟩) := by
  refine ⟨?_, ?_, ?_⟩
  · intro c now key dur msg
    refine ⟨?_, ?_, ?_⟩
    · unfold EspnApi.fetchWithCache EspnApi.fetchFresh
      cases h : Cache.get c key with
      | none => rfl
      | some e =>
        dsimp only
        split <;> rfl
    · intro e hget hstale
      simp [EspnApi.fetchWithCache, EspnApi.fetchFresh, hget, hstale]
    · intro hget
      simp [EspnApi.fetchWithCache, EspnApi.fetchFresh, hget]
  · intro α c now key maxAge e hget hstale
    simp [CfbdApi.getCached, hget, hstale]
  · intro team year c now msg hmiss
    simp [CfbdApi.getRecruiting, hmiss]

/-- C4 witness: the three amended conclusions at concrete inputs — ESPN's
cache is unchanged by a failed fetch, an expired CFBD entry read at 200 ms
with a 100 ms window is deleted, and a stale CFBD refresh failure yields the
error object. -/
theorem c4_amended_upstream_failure_handling_witness :
    (EspnApi.fetchWithCache [("k", ⟨.raw [], 0⟩)] 200 "k" 100 (.error "boom")).cache =
      [("k", ⟨.raw [], 0⟩)] ∧
    CfbdApi.getCached [("k", ⟨"v", 0⟩)] 200 "k" 100 =
      ⟨none, Cache.del [("k", ⟨"v", 0⟩)] "k"⟩ ∧
    CfbdApi.getRecruiting "Texas" "2025" [] 0 (.error "boom") =
      ⟨.errorResult ("Failed to get recruiting data: " ++ "boom"),
        (CfbdApi.getCached ([] : Cache String) 0 ("recruiting_" ++ "Texas" ++ "_" ++ "2025")
          CfbdApi.CACHE_DURATION.RECRUITING).cache, 1⟩ :=
  ⟨(c4_amended_upstream_failure_handling.1 [("k", ⟨.raw [], 0⟩)] 200 "k" 100 "boom").1,
    c4_amended_upstream_failure_handling.2.1 String [("k", ⟨"v", 0⟩)] 200 "k" 100
      ⟨"v", 0⟩ rfl (by decide),
    c4_amended_upstream_failure_handling.2.2 "Texas" "2025" [] 0 "boom" rfl⟩

/-- C5 (code bug): a cached scoreboard collection holding one genuinely live
event — its raw shape carries `status.type.state = 'in'`, the very field the
code's own `parseGameData` normalizes — is NOT detected as live by the
lookup, because the freshness check reads the flat `status.state` path that
raw payloads lack; at age 90 s the entry is therefore still served under the
15-minute no-live window with zero upstream fetches, where the claimed 60 s
window would already have expired it. -/
theorem c5_live_collection_served_under_no_live_ttl :
    (⟨"401", 2000, none, some "in"⟩ : RawEvent).statusTypeState = some "in" ∧
    (EspnApi.parseGameData ⟨"401", 2000, none, some "in"⟩).statusState = some "in" ∧
    eventsSomeLiveFlat (.raw [⟨"401", 2000, none, some "in"⟩]) = false ∧
    EspnApi.getScoreboard "football" "College Football" none
        [("scoreboard-football-today", ⟨.raw [⟨"401", 2000, none, some "in"⟩], 0⟩)]
        90000 (.error "down") =
      ⟨.ok (.raw [⟨"401", 2000, none, some "in"⟩]),
        [("scoreboard-football-today", ⟨.raw [⟨"401", 2000, none, some "in"⟩], 0⟩)],
        0⟩ :=
  ⟨rfl, rfl, rfl, rfl⟩

/-- C6 counterexample: with two completed events listed oldest first, the
selection returns the OLDER one (date 100), not the most recent (date 200);
with two upcoming events listed farthest first, it returns the FARTHER one
(date 1000), not the nearest future one (date 500). -/
theorem c6_counterexample_selection_not_by_recency :
    EspnApi.selectCurrentGame
        [⟨"early", 100, none, some "post"⟩, ⟨"late", 200, none, some "post"⟩] =
      some ⟨"early", 100, some "post"⟩ ∧
    EspnApi.selectCurrentGame
        [⟨"far", 1000, none, some "pre"⟩, ⟨"near", 500, none, some "pre"⟩] =
      some ⟨"far", 1000, some "pre"⟩ :=
  ⟨rfl, rfl⟩

/-- C6 as amended: the selection takes, in priority order, the first
in-progress event in schedule order, else the first completed event in
schedule order, else the first upcoming (`'pre'`) event in schedule order;
an empty schedule selects nothing, and a lookup over an empty schedule
returns a defined null result rather than an error. -/
theorem c6_amended_selection_in_schedule_order :
    (∀ (events : List RawEvent) (e : RawEvent),
        events.find? (fun x => x.statusTypeState == some "in") = some e →
        EspnApi.selectCurrentGame events = some (EspnApi.parseGameData e)) ∧
    (∀ (events : List RawEvent) (e : RawEvent) (rest : List RawEvent),
        events.find? (fun x => x.statusTypeState == some "in") = none →
        events.filter (fun x => x.statusTypeState == some "post") = e :: rest →
        EspnApi.selectCurrentGame events = some (EspnApi.parseGameData e)) ∧
    (∀ (events : List RawEvent) (e : RawEvent) (rest : List RawEvent),
        events.find? (fun x => x.statusTypeState == some "in") = none →
        events.filter (fun x => x.statusTypeState == some "post") = [] →
        events.filter (fun x => x.statusTypeState == some "pre") = e :: rest →
        EspnApi.selectCurrentGame events = some (EspnApi.parseGameData e)) ∧
    EspnApi.selectCurrentGame [] = none ∧
    (∀ (teamName sport teamId : String) (c : Cache JSValue) (now : Nat),
        Cache.get c (EspnApi.currentGameKey teamId sport) = none →
        Cache.get c (EspnApi.scheduleKey teamId sport) = none →
        EspnApi.getCurrentGame teamName sport (some teamId) c now (.ok (.raw [])) =
          ⟨.ok none, Cache.set c (EspnApi.scheduleKey teamId sport) ⟨.raw [], now⟩, 1⟩) := by
  refine ⟨?_, ?_, ?_, rfl, ?_⟩
  · intro events e hfind
    simp [EspnApi.selectCurrentGame, hfind]
  · intro events e rest hfind hfilter
    simp [EspnApi.selectCurrentGame, hfind, hfilter]
  · intro events e rest hfind hpost hpre
    simp [EspnApi.selectCurrentGame, hfind, hpost, hpre]
  · intro teamName sport teamId c now hc hs
    simp [EspnApi.getCurrentGame, hc, EspnApi.currentGameRefetch,
      EspnApi.fetchWithCache, hs, EspnApi.fetchFresh, payloadEvents,
      EspnApi.selectCurrentGame]

/-- C6 witness: a schedule listing a completed, a live and an upcoming event
selects the live one; a schedule with only completed events selects the
first listed; an unknown-to-the-cache team with an empty upstream schedule
yields the null result. -/
theorem c6_amended_selection_in_schedule_order_witness :
    EspnApi.selectCurrentGame
        [⟨"done", 100, none, some "post"⟩, ⟨"live", 200, none, some "in"⟩,
          ⟨"next", 300, none, some "pre"⟩] =
      some (EspnApi.parseGameData ⟨"live", 200, none, some "in"⟩) ∧
    EspnApi.selectCurrentGame
        [⟨"doneA", 100, none, some "post"⟩, ⟨"doneB", 200, none, some "post"⟩] =
      some (EspnApi.parseGameData ⟨"doneA", 100, none, some "post"⟩) ∧
    EspnApi.selectCurrentGame [⟨"soon", 900, none, some "pre"⟩] =
      some (EspnApi.parseGameData ⟨"soon", 900, none, some "pre"⟩) ∧
    EspnApi.getCurrentGame "sooners" "football" (some "201") [] 77 (.ok (.raw [])) =
      ⟨.ok none, Cache.set [] (EspnApi.scheduleKey "201" "football") ⟨.raw [], 77⟩, 1⟩ :=
  ⟨c6_amended_selection_in_schedule_order.1
      [⟨"done", 100, none, some "post"⟩, ⟨"live", 200, none, some "in"⟩,
        ⟨"next", 300, none, some "pre"⟩]
      ⟨"live", 200, none, some "in"⟩ rfl,
    c6_amended_selection_in_schedule_order.2.1
      [⟨"doneA", 100, none, some "post"⟩, ⟨"doneB", 200, none, some "post"⟩]
      ⟨"doneA", 100, none, some "post"⟩ [⟨"doneB", 200, none, some "post"⟩] rfl rfl,
    c6_amended_selection_in_schedule_order.2.2.1
      [⟨"soon", 900, none, some "pre"⟩] ⟨"soon", 900, none, some "pre"⟩ [] rfl rfl rfl,
    c6_amended_selection_in_schedule_order.2.2.2.2 "sooners" "football" "201" [] 77 rfl rfl⟩

/-- C7 counterexample: an unrecognized stored state (`'suspended'`) is given
the 6-hour upcoming window, not the shortest (live) TTL; concretely, an
entry in that state read at age 2 minutes — already past the 60 s live
window — is still served from the cache with no fetch. -/
theorem c7_counterexample_unrecognized_state_not_shortest_ttl :
    EspnApi.adaptiveCacheDuration (some "suspended") =
      EspnApi.CACHE_DURATIONS.UPCOMING_GAME ∧
    EspnApi.adaptiveCacheDuration (some "suspended") ≠
      EspnApi.CACHE_DURATIONS.LIVE_GAME ∧
    EspnApi.getCurrentGame "sooners" "football" (some "7")
        [(EspnApi.currentGameKey "7" "football", ⟨.game ⟨"g", 0, some "suspended"⟩, 0⟩)]
        120000 (.error "down") =
      ⟨.ok (some (.game ⟨"g", 0, some "suspended"⟩)),
        [(EspnApi.currentGameKey "7" "football", ⟨.game ⟨"g", 0, some "suspended"⟩, 0⟩)],
        0⟩ :=
  ⟨rfl, by decide, rfl⟩

/-- C7 as amended: a stored value whose lifecycle state is neither `'in'`
nor `'post'` — including every unrecognized state — falls to the UPCOMING
class and its 6-hour TTL, which is strictly longer than the live TTL; an
adaptive entry in such a state is served from the cache whenever its age is
below the upcoming window. -/
theorem c7_amended_unrecognized_state_defaults_to_upcoming :
    (∀ s : Option String, s ≠ some "in" → s ≠ some "post" →
        EspnApi.adaptiveCacheDuration s = EspnApi.CACHE_DURATIONS.UPCOMING_GAME) ∧
    EspnApi.CACHE_DURATIONS.LIVE_GAME < EspnApi.CACHE_DURATIONS.UPCOMING_GAME ∧
    (∀ (teamName sport teamId : String) (c : Cache JSValue) (now : Nat)
        (u : Except String JSValue) (e : CacheEntry JSValue),
        Cache.get c (EspnApi.currentGameKey teamId sport) = some e →
        statusStateOf e.data ≠ some "in" → statusStateOf e.data ≠ some "post" →
        now - e.timestamp < EspnApi.CACHE_DURATIONS.UPCOMING_GAME →
        EspnApi.getCurrentGame teamName sport (some teamId) c now u =
          ⟨.ok (some e.data), c, 0⟩) := by
  refine ⟨adaptiveCacheDuration_other, by decide, ?_⟩
  intro teamName sport teamId c now u e hget h1 h2 hfresh
  have hlt : now - e.timestamp <
      EspnApi.adaptiveCacheDuration (statusStateOf e.data) := by
    rw [adaptiveCacheDuration_other _ h1 h2]
    exact hfresh
  simp [EspnApi.getCurrentGame, hget, hlt]

/-- C7 witness: an entry stored in the unrecognized state `'postponed'` and
read at age 5 minutes is a cache hit under the upcoming window. -/
theorem c7_amended_unrecognized_state_defaults_to_upcoming_witness :
    EspnApi.getCurrentGame "longhorns" "football" (some "251")
        [(EspnApi.currentGameKey "251" "football", ⟨.game ⟨"g2", 9, some "postponed"⟩, 0⟩)]
        300000 (.error "down") =
      ⟨.ok (some (.game ⟨"g2", 9, some "postponed"⟩)),
        [(EspnApi.currentGameKey "251" "football", ⟨.game ⟨"g2", 9, some "postponed"⟩, 0⟩)],
        0⟩ :=
  c7_amended_unrecognized_state_defaults_to_upcoming.2.2 "longhorns" "football" "251"
    [(EspnApi.currentGameKey "251" "football", ⟨.game ⟨"g2", 9, some "postponed"⟩, 0⟩)]
    300000 (.error "down") ⟨.game ⟨"g2", 9, some "postponed"⟩, 0⟩
    rfl (by decide) (by decide) (by decide)

/-- C9 counterexample: a team name with no id in the mapping is surfaced by
`getCurrentGame` as a thrown `Team not found` error, not as a no-data
result. -/
theorem c9_counterexample_unknown_team_is_thrown_error :
    EspnApi.getCurrentGame "mystery team" "football" none [] 0 (.ok (.raw [])) =
      ⟨.error "Team not found: mystery team", [], 0⟩ :=
  rfl

/-- C9 as amended: an unknown team name IS surfaced as a thrown error by the
ESPN lookups, while the genuinely non-error cases are: an empty schedule
yields a null current game, and a CFBD no-data response yields an
error-flagged result object (not a throw) whose message names the missing
data rather than a fetch failure. -/
theorem c9_amended_not_found_behavior :
    (∀ (teamName sport : String) (c : Cache JSValue) (now : Nat)
        (u : Except String JSValue),
        EspnApi.getCurrentGame teamName sport none c now u =
          ⟨.error ("Team not found: " ++ teamName), c, 0⟩) ∧
    (∀ (teamName sport teamId : String) (c : Cache JSValue) (now : Nat),
        Cache.get c (EspnApi.currentGameKey teamId sport) = none →
        Cache.get c (EspnApi.scheduleKey teamId sport) = none →
        (EspnApi.getCurrentGame teamName sport (some teamId) c now
            (.ok (.raw []))).result = .ok none) ∧
    (∀ (team year : String) (c : Cache String) (now : Nat),
        (CfbdApi.getCached c now ("recruiting_" ++ team ++ "_" ++ year)
            CfbdApi.CACHE_DURATION.RECRUITING).result = none →
        CfbdApi.getRecruiting team year c now (.ok []) =
          ⟨.errorResult ("No recruiting data found for " ++ team ++ " in " ++ year),
            (CfbdApi.getCached c now ("recruiting_" ++ team ++ "_" ++ year)
              CfbdApi.CACHE_DURATION.RECRUITING).cache, 1⟩) := by
  refine ⟨fun teamName sport c now u => rfl, ?_, ?_⟩
  · intro teamName sport teamId c now hc hs
    simp [EspnApi.getCurrentGame, hc, EspnApi.currentGameRefetch,
      EspnApi.fetchWithCache, hs, EspnApi.fetchFresh, payloadEvents,
      EspnApi.selectCurrentGame]
  · intro team year c now hmiss
    simp [CfbdApi.getRecruiting, hmiss]

/-- C9 witness: the three amended conclusions at concrete inputs. -/
theorem c9_amended_not_found_behavior_witness :
    EspnApi.getCurrentGame "mystery team" "basketball" none
        [("x", ⟨.raw [], 3⟩)] 9 (.error "down") =
      ⟨.error ("Team not found: " ++ "mystery team"), [("x", ⟨.raw [], 3⟩)], 0⟩ ∧
    (EspnApi.getCurrentGame "sooners" "football" (some "201") [] 5
        (.ok (.raw []))).result = .ok none ∧
    CfbdApi.getRecruiting "Baylor" "2024" [] 0 (.ok []) =
      ⟨.errorResult ("No recruiting data found for " ++ "Baylor" ++ " in " ++ "2024"),
        (CfbdApi.getCached ([] : Cache String) 0 ("recruiting_" ++ "Baylor" ++ "_" ++ "2024")
          CfbdApi.CACHE_DURATION.RECRUITING).cache, 1⟩ :=
  ⟨c9_amended_not_found_behavior.1 "mystery team" "basketball"
      [("x", ⟨.raw [], 3⟩)] 9 (.error "down"),
    c9_amended_not_found_behavior.2.1 "sooners" "football" "201" [] 5 rfl rfl,
    c9_amended_not_found_behavior.2.2 "Baylor" "2024" [] 0 rfl⟩

/-- C10: the scoreboard lookup is shape-inconsistent between hit and miss: a
read finding a fresh entry returns the stored value — the raw upstream
payload, since the miss path writes the raw response to the cache — while a
miss returns the normalized `{ events: parsed, sport }` object; the parsed
events carry the flat `status.state` copied from the raw nested
`status.type.state`, and the two shapes are distinct values. -/
theorem c10_scoreboard_hit_raw_miss_normalized :
    (∀ (sport sportName : String) (date : Option String) (c : Cache JSValue)
        (now : Nat) (u : Except String JSValue) (e : CacheEntry JSValue),
        Cache.get c (EspnApi.scoreboardCacheKey sport date) = some e →
        now - e.timestamp <
          (if eventsSomeLiveFlat e.data then EspnApi.CACHE_DURATIONS.SCOREBOARD
            else EspnApi.CACHE_DURATIONS.SCOREBOARD_NO_LIVE) →
        EspnApi.getScoreboard sport sportName date c now u = ⟨.ok e.data, c, 0⟩) ∧
    (∀ (sport sportName : String) (date : Option String) (c : Cache JSValue)
        (now : Nat) (evs : List RawEvent),
        Cache.get c (EspnApi.scoreboardCacheKey sport date) = none →
        EspnApi.getScoreboard sport sportName date c now (.ok (.raw evs)) =
          ⟨.ok (.scoreboard (evs.map EspnApi.parseGameData) sportName),
            Cache.set c (EspnApi.scoreboardCacheKey sport date) ⟨.raw evs, now⟩, 1⟩) ∧
    (∀ ev : RawEvent, (EspnApi.parseGameData ev).statusState = ev.statusTypeState) ∧
    JSValue.raw [⟨"401", 0, none, some "in"⟩] ≠
      JSValue.scoreboard [⟨"401", 0, some "in"⟩] "College Football" := by
  refine ⟨?_, ?_, fun ev => rfl, by decide⟩
  · intro sport sportName date c now u e hget hfresh
    simp [EspnApi.getScoreboard, hget, hfresh]
  · intro sport sportName date c now evs hget
    simp [EspnApi.getScoreboard, hget, EspnApi.scoreboardFetch,
      EspnApi.fetchWithCache, EspnApi.fetchFresh, payloadEvents]

/-- C10 witness: a fresh cached raw payload is returned as-is on a hit, and
the identical request on an empty cache returns the normalized scoreboard
while storing the raw payload. -/
theorem c10_scoreboard_hit_raw_miss_normalized_witness :
    EspnApi.getScoreboard "football" "College Football" none
        [("scoreboard-football-today", ⟨.raw [⟨"401", 0, none, some "in"⟩], 0⟩)]
        100 (.error "down") =
      ⟨.ok (.raw [⟨"401", 0, none, some "in"⟩]),
        [("scoreboard-football-today", ⟨.raw [⟨"401", 0, none, some "in"⟩], 0⟩)], 0⟩ ∧
    EspnApi.getScoreboard "football" "College Football" none [] 50
        (.ok (.raw [⟨"401", 0, none, some "in"⟩])) =
      ⟨.ok (.scoreboard [EspnApi.parseGameData ⟨"401", 0, none, some "in"⟩]
          "College Football"),
        Cache.set [] (EspnApi.scoreboardCacheKey "football" none)
          ⟨.raw [⟨"401", 0, none, some "in"⟩], 50⟩, 1⟩ :=
  ⟨c10_scoreboard_hit_raw_miss_normalized.1 "football" "College Football" none
      [("scoreboard-football-today", ⟨.raw [⟨"401", 0, none, some "in"⟩], 0⟩)]
      100 (.error "down") ⟨.raw [⟨"401", 0, none, some "in"⟩], 0⟩ rfl (by decide),
    c10_scoreboard_hit_raw_miss_normalized.2.1 "football" "College Football" none
      [] 50 [⟨"401", 0, none, some "in"⟩] rfl⟩
